import Mathlib

/-!
Shallow embedding of alot's database layer (`src/alot/db.py`):
the write queue and `DBManager.flush`, the `Thread` view with its
optimistic tag cache and lazily built message tree, and the
asynchronous search worker (`FillPipeProcess` / `DBManager.async`).

External collaborators (the notmuch index, the multiprocessing pipe,
the configuration) are modelled as explicit environment parameters;
machine-level concerns are out of scope.  Exceptions become explicit
error values carried in the result, and the possibly non-terminating
`while self.writequeue:` loop of `flush` is given fuel: a `none`
result means the loop did not finish within the supplied fuel.
-/

/-- The error taxonomy of `db.py`: `DatabaseROError` (write attempted on a
read-only manager), `DatabaseLockedError` (read-write handle could not be
acquired), and the general `DatabaseError` raised when `begin_atomic`
fails. -/
inductive DBError where
  | readOnly
  | locked
  | general
deriving DecidableEq, Repr

/-- The three write-command kinds put on the queue: `'tag'`, `'set'`
(tag with `remove_rest=True`) and `'untag'`. -/
inductive Cmd where
  | tag
  | set
  | untag
deriving DecidableEq, Repr

/-- One queued write command, the 4-tuple
`(cmd, querystring, tags, sync)` appended by `DBManager.tag` /
`DBManager.untag`.  Tags are modelled as a finite set of strings. -/
structure WriteOp where
  cmd : Cmd
  querystring : String
  tags : Finset String
  sync : Bool
deriving DecidableEq

/-- `FillPipeProcess` (lines 28-38): a background worker holding the
iterable `it`, the sending end of the pipe, and the transform `fun`
(named `fn` here, `fun` being reserved). -/
structure FillPipeProcess (α β : Type) where
  it : List α
  fn : α → β

/-- The mutable state of a `DBManager`: read-only flag, index path,
FIFO write queue (head at the front) and the list of tracked search
worker processes (the manager spawns workers over strings, as in
`get_threads`). -/
structure DBManager where
  ro : Bool
  path : String
  writequeue : List WriteOp
  processes : List (FillPipeProcess String String)

/-- Behaviour of the external index during one `flush` call:
whether `Database(path, READ_WRITE)` succeeds (`openOk`), and, for the
`i`-th loop iteration, whether `begin_atomic` succeeds (`beginOk i`)
and whether `end_atomic` returns `STATUS.SUCCESS` (`commitOk i`). -/
structure FlushEnv where
  openOk : Bool
  beginOk : Nat → Bool
  commitOk : Nat → Bool

/-- Index interaction recorded during `flush`: transaction begin, the
per-message application block (lines 87-103 of `db.py`, one event per
queued operation) and transaction end with its success status. -/
inductive FlushEvent where
  | beginAtomic
  | applyOp (op : WriteOp)
  | endAtomic (success : Bool)
deriving DecidableEq

/-- Result of one `flush` call: the manager afterwards, the trace of
index interactions, and the exception raised, if any. -/
structure FlushResult where
  mgr : DBManager
  trace : List FlushEvent
  err : Option DBError

/-- The `while self.writequeue:` loop of `DBManager.flush`
(lines 80-107): pop the head item, `begin_atomic` (raising
`DatabaseError` on failure, the popped item being lost), apply the
command to every matching message, and `end_atomic`; if the commit did
not succeed, `appendleft` the item back to the head.  `i` counts loop
iterations; `none` means the fuel ran out before the loop finished. -/
def flushLoop (env : FlushEnv) :
    Nat → Nat → List WriteOp → List FlushEvent →
    Option (List WriteOp × List FlushEvent × Option DBError)
  | 0, _, _, _ => none
  | _ + 1, _, [], tr => some ([], tr, none)
  | fuel + 1, i, op :: rest, tr =>
    if env.beginOk i then
      let tr2 := tr ++ [FlushEvent.beginAtomic, FlushEvent.applyOp op]
      if env.commitOk i then
        flushLoop env fuel (i + 1) rest (tr2 ++ [FlushEvent.endAtomic true])
      else
        flushLoop env fuel (i + 1) (op :: rest) (tr2 ++ [FlushEvent.endAtomic false])
    else
      some (rest, tr, some DBError.general)

/-- `DBManager.flush` (lines 59-107): raise `DatabaseROError` if the
manager is read-only; if the queue is non-empty, open a read-write
handle (raising `DatabaseLockedError` when that fails) and run the
drain loop. -/
def DBManager.flush (env : FlushEnv) (fuel : Nat) (m : DBManager) :
    Option FlushResult :=
  if m.ro then some ⟨m, [], some DBError.readOnly⟩
  else if m.writequeue.isEmpty then some ⟨m, [], none⟩
  else if env.openOk then
    (flushLoop env fuel 0 m.writequeue []).map fun r =>
      ⟨{ m with writequeue := r.1 }, r.2.1, r.2.2⟩
  else some ⟨m, [], some DBError.locked⟩

/-- `DBManager.tag` (lines 118-143): raise `DatabaseROError` when
read-only, otherwise append a `'set'` (when `remove_rest`) or `'tag'`
operation built from the query string, the tags and the configured
maildir sync flag (`cfg`, the value of
`config.getboolean('maildir', 'synchronize_flags')`). -/
def DBManager.tag (m : DBManager) (cfg : Bool) (querystring : String)
    (tags : Finset String) (remove_rest : Bool) : Except DBError DBManager :=
  if m.ro then Except.error DBError.readOnly
  else if remove_rest then
    Except.ok { m with writequeue := m.writequeue ++ [⟨Cmd.set, querystring, tags, cfg⟩] }
  else
    Except.ok { m with writequeue := m.writequeue ++ [⟨Cmd.tag, querystring, tags, cfg⟩] }

/-- `DBManager.untag` (lines 145-164): raise `DatabaseROError` when
read-only, otherwise append an `'untag'` operation. -/
def DBManager.untag (m : DBManager) (cfg : Bool) (querystring : String)
    (tags : Finset String) : Except DBError DBManager :=
  if m.ro then Except.error DBError.readOnly
  else Except.ok { m with writequeue := m.writequeue ++ [⟨Cmd.untag, querystring, tags, cfg⟩] }

/-- The trace produced by a drain in which every transaction begins and
commits successfully: one begin/apply/end triple per queued operation,
in queue order. -/
def allOkTrace (q : List WriteOp) : List FlushEvent :=
  q.flatMap fun op =>
    [FlushEvent.beginAtomic, FlushEvent.applyOp op, FlushEvent.endAtomic true]

/-- `FillPipeProcess.run` (lines 35-38) as the trace the consumer side
of the pipe observes: one `send` per item, then the close of the
sending end. -/
inductive PipeEvent (β : Type) where
  | send (b : β)
  | close
deriving DecidableEq

def FillPipeProcess.run {α β : Type} (p : FillPipeProcess α β) :
    List (PipeEvent β) :=
  (p.it.map fun a => PipeEvent.send (p.fn a)) ++ [PipeEvent.close]

/-- What a consumer reading the pipe to the end observes: the list of
received values up to a clean closure, or `none` when the trace ends
without the sending side ever closing (the consumer would hang). -/
def consume {β : Type} : List (PipeEvent β) → Option (List β)
  | [] => none
  | PipeEvent.close :: _ => some []
  | PipeEvent.send b :: rest => (consume rest).map fun l => b :: l

/-- `DBManager.async` (lines 203-224): build a `FillPipeProcess` over
`cbl()` and the transform, start it, append it to the tracked
`processes`, close the caller-side sending handle and hand back the
receiving end (here: the worker's observable pipe trace) together with
the process. -/
def DBManager.async (m : DBManager) (cbl : Unit → List String)
    (fn : String → String) :
    List (PipeEvent String) × FillPipeProcess String String × DBManager :=
  let p : FillPipeProcess String String := ⟨cbl (), fn⟩
  (p.run, p, { m with processes := m.processes ++ [p] })

/-- `DBManager.kill_search_processes` (lines 109-116): terminate every
tracked process (returned here as the list of terminated workers, in
tracking order) and reset the tracking list to empty. -/
def DBManager.kill_search_processes (m : DBManager) :
    List (FillPipeProcess String String) × DBManager :=
  (m.processes, { m with processes := [] })

/-- A message match of the index, with its reply structure: `mid` is
the message id, `replies` the direct replies (`msg.get_replies()`). -/
inductive RawMessage where
  | mk (mid : String) (replies : List RawMessage)

def RawMessage.mid : RawMessage → String
  | RawMessage.mk m _ => m

/-- A thread match of the index: the accessors used by
`Thread.refresh` and `Thread.get_messages` (id, message count,
authors, subject, oldest/newest timestamp, tags, toplevel messages). -/
structure RawThread where
  tid : String
  total : Nat
  authors : String
  subject : String
  oldest : Int
  newest : Int
  tags : Finset String
  toplevel : List RawMessage

/-- The index as seen through `DBManager.query` and thread search.
`DBManager.query` (lines 239-249) first opens a read-only handle:
`openRO` is the outcome of that `Database(path, READ_ONLY)`
constructor, which raises `NotmuchError` when the index cannot be
opened.  `searchThreads` is the subsequent
`query.search_threads()` on the created query object: the list of
matching threads, or a raised `NotmuchError` / `XapianError` (carried
as a message string). -/
structure IndexEnv where
  openRO : Except String Unit
  searchThreads : String → Except String (List RawThread)

/-- `datetime.fromtimestamp`, which raises `ValueError` when the year
falls outside `datetime`'s representable range (modelled by the
timestamp bounds of years 1 and 9999); `db.py` converts that failure
into an absent date. -/
def fromtimestamp (ts : Int) : Option Int :=
  if ts < -62135596800 ∨ 253402300799 < ts then none else some ts

/-- The cached state of a `Thread` wrapper: `_id`, the metadata fields
pulled by `refresh`, and the lazily built message tree (`_messages`
maps each message id to the ids of its direct replies;
`_toplevel_messages` lists the root message ids). -/
structure ThreadView where
  id : String
  totalMessages : Nat
  authors : String
  subject : String
  oldestDate : Option Int
  newestDate : Option Int
  tags : Finset String
  messages : List (String × List String)
  toplevelMessages : List String
deriving DecidableEq

/-- The body of `Thread.refresh` (lines 276-293) given the thread
match: copy the metadata fields, convert the two timestamps (absent
when out of range), copy the tag set, and reset `_messages` and
`_toplevel_messages` to empty. -/
def ThreadView.refreshWith (th : RawThread) (t : ThreadView) : ThreadView :=
  { t with
    totalMessages := th.total
    authors := th.authors
    subject := th.subject
    oldestDate := fromtimestamp th.oldest
    newestDate := fromtimestamp th.newest
    tags := th.tags
    messages := []
    toplevelMessages := [] }

/-- `Thread.refresh` with no argument: open a read-only handle and
query the index for `thread:<id>`, take the first match (`next()`
raising when there is none) and refresh from it.  There is no `try`
here: the open failure and the search failure both propagate. -/
def ThreadView.refresh (env : IndexEnv) (t : ThreadView) :
    Except String ThreadView :=
  match env.openRO with
  | Except.error e => Except.error e
  | Except.ok _ =>
    match env.searchThreads ("thread:" ++ t.id) with
    | Except.error e => Except.error e
    | Except.ok [] => Except.error "StopIteration"
    | Except.ok (th :: _) => Except.ok (ThreadView.refreshWith th t)

/-- `Thread.__init__` (lines 260-269): record the thread id, then
refresh from the given match. -/
def ThreadView.init (th : RawThread) : ThreadView :=
  ThreadView.refreshWith th
    { id := th.tid, totalMessages := 0, authors := "", subject := ""
      oldestDate := none, newestDate := none, tags := ∅
      messages := [], toplevelMessages := [] }

/-- The `accumulate` recursion of `Thread.get_messages` (lines
390-402) restricted to message ids: every message of the tree is
recorded with the ids of its direct replies, parents before their
subtrees, trees in toplevel order. -/
def buildTree : RawMessage → List (String × List String)
  | RawMessage.mk mid replies =>
    (mid, replies.map RawMessage.mid) ::
      (replies.attach.flatMap fun r => buildTree r.1)
decreasing_by
  have h := List.sizeOf_lt_of_mem r.2
  simp only [RawMessage.mk.sizeOf_spec]
  omega

/-- `Thread.get_messages` (lines 378-403): when `_messages` is empty,
re-query the thread, rebuild the mapping from scratch and append the
roots to `_toplevel_messages`; otherwise return the cached mapping
untouched without touching the index. -/
def ThreadView.get_messages (env : IndexEnv) (t : ThreadView) :
    Except String (ThreadView × List (String × List String)) :=
  if t.messages.isEmpty then
    match env.openRO with
    | Except.error e => Except.error e
    | Except.ok _ =>
      match env.searchThreads ("thread:" ++ t.id) with
      | Except.error e => Except.error e
      | Except.ok [] => Except.error "StopIteration"
      | Except.ok (th :: _) =>
        let msgs := th.toplevel.flatMap buildTree
        Except.ok
          ({ t with
              messages := msgs
              toplevelMessages :=
                t.toplevelMessages ++ th.toplevel.map RawMessage.mid },
            msgs)
  else Except.ok (t, t.messages)

/-- `Thread.add_tags` (lines 312-326): compute the genuinely new tags;
when non-empty, enqueue a `'tag'` operation for `thread:<id>` carrying
exactly the new tags and union them into the local tag set. -/
def ThreadView.add_tags (cfg : Bool) (m : DBManager) (t : ThreadView)
    (tags : Finset String) : Except DBError (DBManager × ThreadView) :=
  let newtags := tags \ t.tags
  if newtags ≠ ∅ then
    match m.tag cfg ("thread:" ++ t.id) newtags false with
    | Except.error e => Except.error e
    | Except.ok m2 => Except.ok (m2, { t with tags := t.tags ∪ newtags })
  else Except.ok (m, t)

/-- `Thread.remove_tags` (lines 328-341): compute the intersection
with the current tags; when non-empty, enqueue an `'untag'` operation
carrying the originally requested tags and subtract the intersection
from the local tag set. -/
def ThreadView.remove_tags (cfg : Bool) (m : DBManager) (t : ThreadView)
    (tags : Finset String) : Except DBError (DBManager × ThreadView) :=
  let rmtags := tags ∩ t.tags
  if rmtags ≠ ∅ then
    match m.untag cfg ("thread:" ++ t.id) tags with
    | Except.error e => Except.error e
    | Except.ok m2 => Except.ok (m2, { t with tags := t.tags \ rmtags })
  else Except.ok (m, t)

/-- `Thread.set_tags` (lines 343-356): when the requested tags differ
from the current ones, enqueue a `'set'` operation (tag with
`remove_rest=True`) carrying the full requested set and replace the
local tag set wholesale. -/
def ThreadView.set_tags (cfg : Bool) (m : DBManager) (t : ThreadView)
    (tags : Finset String) : Except DBError (DBManager × ThreadView) :=
  if tags ≠ t.tags then
    match m.tag cfg ("thread:" ++ t.id) tags true with
    | Except.error e => Except.error e
    | Except.ok m2 => Except.ok (m2, { t with tags := tags })
  else Except.ok (m, t)

/-- `DBManager.get_thread` (lines 180-186): `query = self.query(...)`
on line 182 runs *outside* the bare `try`, so a `NotmuchError` from
opening the read-only handle propagates to the caller.  The `try` of
lines 183-186 covers only `search_threads().next()` and the `Thread`
construction: there, an index error as well as the absence of a match
is converted into `None`. -/
def DBManager.get_thread (env : IndexEnv) (m : DBManager) (tid : String) :
    Except String (Option ThreadView) :=
  match env.openRO with
  | Except.error e => Except.error e
  | Except.ok _ =>
    match env.searchThreads ("thread:" ++ tid) with
    | Except.error _ => Except.ok none
    | Except.ok [] => Except.ok none
    | Except.ok (th :: _) => Except.ok (some (ThreadView.init th))

/-! Concrete fixtures used in worked examples below. -/

/-- Three distinct queued operations. -/
def opA : WriteOp := ⟨Cmd.tag, "a", {"x"}, false⟩

def opB : WriteOp := ⟨Cmd.untag, "b", {"y"}, false⟩

def opC : WriteOp := ⟨Cmd.set, "c", {"z"}, false⟩

/-- A read-write manager with queue `[A, B, C]`. -/
def mABC : DBManager := ⟨false, "/idx", [opA, opB, opC], []⟩

/-- A read-write manager with an empty queue. -/
def m0 : DBManager := ⟨false, "/idx", [], []⟩

/-- A read-only manager with an empty queue. -/
def mRO : DBManager := ⟨true, "/idx", [], []⟩

/-- An index in which every transaction begins and commits. -/
def envAllOk : FlushEnv := ⟨true, fun _ => true, fun _ => true⟩

/-- An index in which exactly the second transaction of the drain
(iteration 1) fails to commit; every other attempt succeeds. -/
def envFailSecond : FlushEnv := ⟨true, fun _ => true, fun i => i != 1⟩

/-- An index whose write handle cannot be acquired. -/
def envLocked : FlushEnv := ⟨false, fun _ => true, fun _ => true⟩

/-- A one-message thread match with id `t1` and tags `{x, y}`. -/
def rawMsg1 : RawMessage := RawMessage.mk "m1" []

def rawTh1 : RawThread :=
  ⟨"t1", 1, "ann", "hello", 100, 200, {"x", "y"}, [rawMsg1]⟩

/-- An index that opens and holds exactly the thread `t1`. -/
def idxEnv1 : IndexEnv :=
  ⟨Except.ok (),
   fun q => if q = "thread:t1" then Except.ok [rawTh1] else Except.ok []⟩

/-- An index that opens but whose every search raises. -/
def idxEnvErr : IndexEnv :=
  ⟨Except.ok (), fun _ => Except.error "XapianError"⟩

/-- An index whose read-only handle cannot even be opened. -/
def idxEnvNoOpen : IndexEnv :=
  ⟨Except.error "NotmuchError", fun _ => Except.ok []⟩

/-- The thread view freshly constructed from `rawTh1`. -/
def tv1 : ThreadView := ThreadView.init rawTh1

/-- `tv1` after its message tree has been built. -/
def tvBuilt : ThreadView :=
  { tv1 with messages := [("m1", [])], toplevelMessages := ["m1"] }

/-! Theorems. -/

/-- When every transaction begins and commits, the drain loop consumes
the whole queue front to back, leaving one begin/apply/end-success
triple per operation on the trace, and `q.length + 1` fuel suffices. -/
theorem flushLoop_allOk (env : FlushEnv) (hb : ∀ i, env.beginOk i = true)
    (hc : ∀ i, env.commitOk i = true) :
    ∀ (q : List WriteOp) (i : Nat) (tr : List FlushEvent),
      flushLoop env (q.length + 1) i q tr = some ([], tr ++ allOkTrace q, none) := by
  intro q
  induction q with
  | nil =>
    intro i tr
    simp [flushLoop, allOkTrace]
  | cons op rest ih =>
    intro i tr
    simp only [List.length_cons, flushLoop, hb, hc, if_true]
    rw [ih (i + 1)]
    simp [allOkTrace]

/-- Claim C2: on a read-write manager whose queue is `[A, B, C]`, when
the write handle opens and every transaction begins and commits, one
`flush` pops and applies the operations in FIFO order `A`, `B`, `C`,
each inside its own begin/end transaction pair, and the queue ends
empty. -/
theorem flush_fifo_applies_in_order (env : FlushEnv) (m : DBManager)
    (A B C : WriteOp) (hro : m.ro = false) (hq : m.writequeue = [A, B, C])
    (hopen : env.openOk = true)
    (hb : ∀ i, env.beginOk i = true) (hc : ∀ i, env.commitOk i = true) :
    DBManager.flush env 4 m =
      some ⟨{ m with writequeue := [] },
        [FlushEvent.beginAtomic, FlushEvent.applyOp A, FlushEvent.endAtomic true,
         FlushEvent.beginAtomic, FlushEvent.applyOp B, FlushEvent.endAtomic true,
         FlushEvent.beginAtomic, FlushEvent.applyOp C, FlushEvent.endAtomic true],
        none⟩ := by
  have h := flushLoop_allOk env hb hc [A, B, C] 0 []
  simp only [allOkTrace, List.length_cons, List.length_nil, List.nil_append,
    List.flatMap_cons, List.flatMap_nil, List.cons_append, List.append_nil,
    List.nil_append, Nat.reduceAdd] at h
  simp [DBManager.flush, hro, hq, hopen, h]

/-- Worked instance of `flush_fifo_applies_in_order` on the concrete
manager `mABC`. -/
theorem flush_fifo_applies_in_order_witness :
    DBManager.flush envAllOk 4 mABC =
      some ⟨{ mABC with writequeue := [] },
        [FlushEvent.beginAtomic, FlushEvent.applyOp opA, FlushEvent.endAtomic true,
         FlushEvent.beginAtomic, FlushEvent.applyOp opB, FlushEvent.endAtomic true,
         FlushEvent.beginAtomic, FlushEvent.applyOp opC, FlushEvent.endAtomic true],
        none⟩ :=
  flush_fifo_applies_in_order envAllOk mABC opA opB opC rfl rfl rfl
    (fun _ => rfl) (fun _ => rfl)

/-- Claim C4: on a read-write manager with a non-empty queue, when the
read-write handle cannot be acquired, `flush` raises
`DatabaseLockedError`, touches no index transaction, and leaves the
manager - in particular its queue - exactly as it was. -/
theorem flush_locked_leaves_queue (env : FlushEnv) (fuel : Nat)
    (m : DBManager) (hro : m.ro = false) (hq : m.writequeue ≠ [])
    (hopen : env.openOk = false) :
    DBManager.flush env fuel m = some ⟨m, [], some DBError.locked⟩ := by
  simp [DBManager.flush, hro, hopen, hq]

/-- Worked instance of `flush_locked_leaves_queue` on `mABC`. -/
theorem flush_locked_leaves_queue_witness :
    DBManager.flush envLocked 0 mABC = some ⟨mABC, [], some DBError.locked⟩ :=
  flush_locked_leaves_queue envLocked 0 mABC rfl (by simp [mABC]) rfl

/-- Counterexample to claim C3: the read-only check of `flush`
(line 72) precedes the empty-queue check (line 74), so a
read-only-opened manager cannot even flush an empty queue -
`DatabaseROError` is raised, where the claim expects a clean no-op. -/
theorem flush_empty_ro_cex :
    DBManager.flush envAllOk 0 mRO = some ⟨mRO, [], some DBError.readOnly⟩ ∧
    (some DBError.readOnly : Option DBError) ≠ none :=
  ⟨rfl, by simp⟩

/-- Claim C3 (amended): flushing an empty queue is a no-op - no index
interaction at all, for any index environment, the queue stays empty
and no error is raised - provided the manager is read-write; the
read-only check comes first, so a read-only-opened manager always gets
`DatabaseROError`, empty queue or not. -/
theorem flush_empty_queue_noop (env : FlushEnv) (fuel : Nat)
    (m : DBManager) (hq : m.writequeue = []) :
    (m.ro = false → DBManager.flush env fuel m = some ⟨m, [], none⟩) ∧
    (m.ro = true →
      DBManager.flush env fuel m = some ⟨m, [], some DBError.readOnly⟩) := by
  constructor <;> intro hro <;> simp [DBManager.flush, hro, hq]

/-- Worked instance of `flush_empty_queue_noop` on the empty-queue
managers `m0` and `mRO`, under the locked environment: no
`DatabaseLockedError` can arise since the handle is never opened. -/
theorem flush_empty_queue_noop_witness :
    DBManager.flush envLocked 0 m0 = some ⟨m0, [], none⟩ ∧
    DBManager.flush envLocked 0 mRO = some ⟨mRO, [], some DBError.readOnly⟩ :=
  ⟨(flush_empty_queue_noop envLocked 0 m0 rfl).1 rfl,
   (flush_empty_queue_noop envLocked 0 mRO rfl).2 rfl⟩

/-- If the commit of the head operation keeps failing, the drain loop
of `flush` never terminates: it pops the operation, reinserts it at
the head and immediately retries it, for any amount of fuel. -/
theorem flushLoop_commit_always_fails (env : FlushEnv)
    (hb : ∀ i, env.beginOk i = true) (hc : ∀ i, env.commitOk i = false) :
    ∀ (fuel i : Nat) (op : WriteOp) (rest : List WriteOp)
      (tr : List FlushEvent), flushLoop env fuel i (op :: rest) tr = none := by
  intro fuel
  induction fuel with
  | zero => intro i op rest tr; rfl
  | succ fuel ih =>
    intro i op rest tr
    simp only [flushLoop, hb, hc, if_true, Bool.false_eq_true, if_false]
    exact ih (i + 1) op rest _

/-- Counterexample to claim C1: with queue `[A, B, C]` under an index
that rejects exactly the second commit of the drain (so `B`'s first
commit fails while `A`'s and `C`'s succeed), a single `flush` ends
with an *empty* queue, not with `[B]`: the reinserted `B` is re-popped
and retried by the same `while` loop, not deferred to the next
`flush`. -/
theorem flush_retry_is_immediate_cex :
    (DBManager.flush envFailSecond 6 mABC).map (fun r => r.mgr.writequeue) =
      some [] ∧
    ([] : List WriteOp) ≠ [opB] :=
  ⟨rfl, by simp⟩

/-- Claim C1 (amended): an operation whose transaction starts but
fails to commit is reinserted at the head of the queue and immediately
retried by the same `flush` call's drain loop.  For a queue
`[A, B, C]` under an index that fails exactly `B`'s first commit, one
`flush` applies `A`, `B`, `B` again, then `C`, and ends with an empty
queue - nothing is left for a second `flush`.  (When the commit keeps
failing, the same `flush` call retries forever:
`flushLoop_commit_always_fails`.) -/
theorem flush_commit_failure_retried_immediately (p : String)
    (ps : List (FillPipeProcess String String)) (A B C : WriteOp) :
    DBManager.flush envFailSecond 6 ⟨false, p, [A, B, C], ps⟩ =
      some ⟨⟨false, p, [], ps⟩,
        [FlushEvent.beginAtomic, FlushEvent.applyOp A, FlushEvent.endAtomic true,
         FlushEvent.beginAtomic, FlushEvent.applyOp B, FlushEvent.endAtomic false,
         FlushEvent.beginAtomic, FlushEvent.applyOp B, FlushEvent.endAtomic true,
         FlushEvent.beginAtomic, FlushEvent.applyOp C, FlushEvent.endAtomic true],
        none⟩ :=
  rfl

/-- Claim C5: whenever the computed delta is empty - no genuinely new
tag for `add_tags`, no intersection with the current tags for
`remove_tags`, a requested set equal to the current one for
`set_tags` - the call is a silent no-op: the manager (hence the write
queue) and the thread's local tag state are returned unchanged, and no
error is raised even on a read-only manager. -/
theorem thread_tags_empty_delta_noop (cfg : Bool) (m : DBManager)
    (t : ThreadView) (r : Finset String) :
    (r \ t.tags = ∅ → ThreadView.add_tags cfg m t r = Except.ok (m, t)) ∧
    (r ∩ t.tags = ∅ → ThreadView.remove_tags cfg m t r = Except.ok (m, t)) ∧
    (r = t.tags → ThreadView.set_tags cfg m t r = Except.ok (m, t)) := by
  refine ⟨fun h => ?_, fun h => ?_, fun h => ?_⟩ <;>
    simp [ThreadView.add_tags, ThreadView.remove_tags, ThreadView.set_tags, h]

/-- Worked instance of `thread_tags_empty_delta_noop` on the thread
`tv1` (tagged `{x, y}`): adding `{x}`, removing `{z}` and setting
`{x, y}` all enqueue nothing and leave the local tags untouched. -/
theorem thread_tags_empty_delta_noop_witness :
    ThreadView.add_tags false m0 tv1 {"x"} = Except.ok (m0, tv1) ∧
    ThreadView.remove_tags false m0 tv1 {"z"} = Except.ok (m0, tv1) ∧
    ThreadView.set_tags false m0 tv1 {"x", "y"} = Except.ok (m0, tv1) :=
  ⟨(thread_tags_empty_delta_noop false m0 tv1 {"x"}).1 (by decide),
   (thread_tags_empty_delta_noop false m0 tv1 {"z"}).2.1 (by decide),
   (thread_tags_empty_delta_noop false m0 tv1 {"x", "y"}).2.2 (by decide)⟩

/-- Claim C7: when the requested removal set `r` meets the current
tags `t.tags`, `remove_tags` on a read-write manager enqueues exactly
one `'untag'` operation scoped to `thread:<id>` carrying the
*originally requested* set `r` - not the intersection - and the local
tag set immediately becomes `t.tags` minus the intersection, with no
flush involved. -/
theorem remove_tags_enqueues_requested_set (cfg : Bool) (m : DBManager)
    (t : ThreadView) (r : Finset String) (hne : r ∩ t.tags ≠ ∅)
    (hro : m.ro = false) :
    ThreadView.remove_tags cfg m t r =
      Except.ok
        ({ m with writequeue :=
            m.writequeue ++ [⟨Cmd.untag, "thread:" ++ t.id, r, cfg⟩] },
         { t with tags := t.tags \ (r ∩ t.tags) }) := by
  simp [ThreadView.remove_tags, hne, DBManager.untag, hro]

/-- Worked instance of `remove_tags_enqueues_requested_set`: removing
`{x, z}` from `tv1` (tagged `{x, y}`) enqueues an `'untag'` carrying
`{x, z}` and the local tags become `{y}`. -/
theorem remove_tags_enqueues_requested_set_witness :
    ThreadView.remove_tags false m0 tv1 {"x", "z"} =
      Except.ok
        ({ m0 with writequeue :=
            m0.writequeue ++ [⟨Cmd.untag, "thread:" ++ tv1.id, {"x", "z"}, false⟩] },
         { tv1 with tags := tv1.tags \ ({"x", "z"} ∩ tv1.tags) }) :=
  remove_tags_enqueues_requested_set false m0 tv1 {"x", "z"} (by decide) rfl

/-- A trace of sends followed by one close is consumed cleanly: the
consumer receives exactly the sent values, in order. -/
theorem consume_sends_then_close {β : Type} (xs : List β) :
    consume (xs.map PipeEvent.send ++ [PipeEvent.close]) = some xs := by
  induction xs with
  | nil => simp [consume]
  | cons x xs ih => simp [consume, ih]

/-- Claim C8: for every producer sequence and every transform, the
worker's pipe trace is exactly one `send` of `fn a` per item `a`, in
producer order, followed by the close of the sending side; a consumer
reading the channel therefore observes all `it.length` transformed
values and then a clean closure.  `DBManager.async` hands the caller
exactly that trace for the worker it spawns over `cbl ()`. -/
theorem fillpipe_sends_all_then_closes {α β : Type} (it : List α)
    (fn : α → β) (m : DBManager) (cbl : Unit → List String)
    (g : String → String) :
    FillPipeProcess.run ⟨it, fn⟩ =
      (it.map fn).map PipeEvent.send ++ [PipeEvent.close] ∧
    consume (FillPipeProcess.run ⟨it, fn⟩) = some (it.map fn) ∧
    (it.map fn).length = it.length ∧
    (m.async cbl g).1 = FillPipeProcess.run ⟨cbl (), g⟩ := by
  refine ⟨?_, ?_, by simp, rfl⟩
  · simp [FillPipeProcess.run, List.map_map, Function.comp]
  · have h := consume_sends_then_close (it.map fn)
    simpa [FillPipeProcess.run, List.map_map, Function.comp] using h

/-- Claim C9: the tracked worker set changes only at the two intended
points.  `async` appends the newly spawned worker to `processes`;
`kill_search_processes` terminates every tracked worker (its first
component lists them all, in tracking order) and empties the tracking
list; and no other manager operation - `tag`, `untag` or `flush`,
whatever their outcome - ever changes `processes`.  In particular no
operation removes a single worker, so completion never untracks. -/
theorem worker_tracking_only_spawn_and_kill (m : DBManager)
    (cbl : Unit → List String) (g : String → String) (env : FlushEnv)
    (fuel : Nat) (cfg : Bool) (qs : String) (ts : Finset String)
    (rr : Bool) :
    (m.async cbl g).2.2.processes = m.processes ++ [⟨cbl (), g⟩] ∧
    m.kill_search_processes = (m.processes, { m with processes := [] }) ∧
    (∀ m2, m.tag cfg qs ts rr = Except.ok m2 → m2.processes = m.processes) ∧
    (∀ m2, m.untag cfg qs ts = Except.ok m2 → m2.processes = m.processes) ∧
    (∀ r, DBManager.flush env fuel m = some r →
      r.mgr.processes = m.processes) := by
  refine ⟨rfl, rfl, ?_, ?_, ?_⟩
  · intro m2 h
    unfold DBManager.tag at h
    split at h
    · simp at h
    · split at h <;> (cases h; rfl)
  · intro m2 h
    unfold DBManager.untag at h
    split at h
    · simp at h
    · cases h; rfl
  · intro r h
    unfold DBManager.flush at h
    split at h
    · cases h; rfl
    · split at h
      · cases h; rfl
      · split at h
        · rcases Option.map_eq_some'.mp h with ⟨a, _, rfl⟩
          rfl
        · cases h; rfl

/-- Worked instance of `worker_tracking_only_spawn_and_kill`: a `tag`
call on `m0` leaves the (empty) tracking list unchanged. -/
theorem worker_tracking_only_spawn_and_kill_witness :
    ({ m0 with writequeue :=
        m0.writequeue ++ [⟨Cmd.tag, "q", ∅, false⟩] } : DBManager).processes =
      m0.processes :=
  (worker_tracking_only_spawn_and_kill m0 (fun _ => []) id envAllOk 0
    false "q" ∅ false).2.2.1
    { m0 with writequeue := m0.writequeue ++ [⟨Cmd.tag, "q", ∅, false⟩] } rfl

/-- Counterexample to claim C10: `query = self.query('thread:' + tid)`
on line 182 of `db.py` stands outside the bare `try` of lines 183-186,
and `DBManager.query` opens `Database(path, READ_ONLY)`, which raises
`NotmuchError` when the index cannot be opened.  On an index whose
read-only open fails, `get_thread` therefore propagates the exception
to the caller instead of answering the not-found result. -/
theorem get_thread_open_failure_propagates_cex :
    DBManager.get_thread idxEnvNoOpen m0 "t1" =
      Except.error "NotmuchError" ∧
    (Except.error "NotmuchError" :
        Except String (Option ThreadView)) ≠ Except.ok none :=
  ⟨rfl, by simp⟩

/-- Claim C10 (amended): once the query object has been created - the
read-only handle opened successfully - `get_thread` never propagates
an exception: the bare `except:` converts a raised search error into
`None` just like the absence of a match, and a first match `th` yields
the freshly constructed view of `th`.  A failure to open the read-only
handle, however, happens before the protecting `try` and propagates to
the caller. -/
theorem get_thread_contains_search_failures (env : IndexEnv)
    (m : DBManager) (tid : String) :
    (∀ e, env.openRO = Except.error e →
      DBManager.get_thread env m tid = Except.error e) ∧
    (env.openRO = Except.ok () →
      ((∀ e, env.searchThreads ("thread:" ++ tid) = Except.error e →
        DBManager.get_thread env m tid = Except.ok none) ∧
       (env.searchThreads ("thread:" ++ tid) = Except.ok [] →
        DBManager.get_thread env m tid = Except.ok none) ∧
       (∀ th rest,
        env.searchThreads ("thread:" ++ tid) = Except.ok (th :: rest) →
        DBManager.get_thread env m tid =
          Except.ok (some (ThreadView.init th))))) := by
  refine ⟨fun e h => ?_,
    fun ho => ⟨fun e h => ?_, fun h => ?_, fun th rest h => ?_⟩⟩ <;>
    simp [DBManager.get_thread, *]

/-- Worked instance of `get_thread_contains_search_failures`: a failed
open propagates; a search error, a miss and a hit - with the handle
open - are all answered without an exception. -/
theorem get_thread_contains_search_failures_witness :
    DBManager.get_thread idxEnvNoOpen m0 "t1" =
      Except.error "NotmuchError" ∧
    DBManager.get_thread idxEnvErr m0 "t1" = Except.ok none ∧
    DBManager.get_thread idxEnv1 m0 "t9" = Except.ok none ∧
    DBManager.get_thread idxEnv1 m0 "t1" =
      Except.ok (some (ThreadView.init rawTh1)) :=
  ⟨(get_thread_contains_search_failures idxEnvNoOpen m0 "t1").1
      "NotmuchError" rfl,
   ((get_thread_contains_search_failures idxEnvErr m0 "t1").2 rfl).1
      "XapianError" rfl,
   ((get_thread_contains_search_failures idxEnv1 m0 "t9").2 rfl).2.1 rfl,
   ((get_thread_contains_search_failures idxEnv1 m0 "t1").2 rfl).2.2
      rawTh1 [] rfl⟩

/-- Counterexample to claim C6: build `tv1`'s message tree with
`get_messages` (yielding `tvBuilt`, whose mapping holds `m1`), then
`refresh`; lines 292-293 of `db.py` reset `_messages` and
`_toplevel_messages`, so the refreshed view's mapping is empty - the
cached tree *is* invalidated, and a later `get_messages` would have to
rebuild it. -/
theorem refresh_invalidates_tree_cex :
    ThreadView.get_messages idxEnv1 tv1 = Except.ok (tvBuilt, [("m1", [])]) ∧
    ThreadView.refresh idxEnv1 tvBuilt = Except.ok tv1 ∧
    tvBuilt.messages = [("m1", [])] ∧
    tv1.messages = [] ∧
    ([("m1", [])] : List (String × List String)) ≠ [] := by
  refine ⟨?_, rfl, rfl, rfl, by simp⟩
  have h0 : idxEnv1.openRO = Except.ok () := rfl
  have h1 : idxEnv1.searchThreads "thread:t1" = Except.ok [rawTh1] := rfl
  have h2 : buildTree (RawMessage.mk "m1" []) = [("m1", [])] := by
    simp [buildTree, RawMessage.mid]
  simp [ThreadView.get_messages, h0, h1, h2, tvBuilt, tv1, ThreadView.init,
    ThreadView.refreshWith, rawTh1, rawMsg1, RawMessage.mid]

/-- Claim C6 (amended): `refresh` re-pulls the metadata fields
(message count, authors, subject, dates, tags) from the index match
and *also resets* the cached message tree - `messages` and
`toplevelMessages` become empty, so the tree is rebuilt by the next
`get_messages`.  Between refreshes the tree is built at most once:
`get_messages` with a non-empty cache returns the view and its mapping
unchanged, touching no index whatsoever. -/
theorem refresh_repulls_metadata_and_resets_tree (th : RawThread)
    (t : ThreadView) (env : IndexEnv) :
    ((ThreadView.refreshWith th t).id = t.id ∧
     (ThreadView.refreshWith th t).totalMessages = th.total ∧
     (ThreadView.refreshWith th t).authors = th.authors ∧
     (ThreadView.refreshWith th t).subject = th.subject ∧
     (ThreadView.refreshWith th t).oldestDate = fromtimestamp th.oldest ∧
     (ThreadView.refreshWith th t).newestDate = fromtimestamp th.newest ∧
     (ThreadView.refreshWith th t).tags = th.tags ∧
     (ThreadView.refreshWith th t).messages = [] ∧
     (ThreadView.refreshWith th t).toplevelMessages = []) ∧
    (t.messages ≠ [] →
      ThreadView.get_messages env t = Except.ok (t, t.messages)) := by
  refine ⟨⟨rfl, rfl, rfl, rfl, rfl, rfl, rfl, rfl, rfl⟩, fun h => ?_⟩
  simp [ThreadView.get_messages, h]

/-- Worked instance of `refresh_repulls_metadata_and_resets_tree` on
`tvBuilt`: refreshing drops the built mapping; `get_messages` on the
already-built view returns the cache unchanged. -/
theorem refresh_repulls_metadata_and_resets_tree_witness :
    (ThreadView.refreshWith rawTh1 tvBuilt).messages = [] ∧
    ThreadView.get_messages idxEnv1 tvBuilt =
      Except.ok (tvBuilt, tvBuilt.messages) :=
  ⟨(refresh_repulls_metadata_and_resets_tree rawTh1 tvBuilt
      idxEnv1).1.2.2.2.2.2.2.2.1,
   (refresh_repulls_metadata_and_resets_tree rawTh1 tvBuilt idxEnv1).2
      (by simp [tvBuilt])⟩
